import Mathlib

/-!
Verification of the VoiceChatLib widget (`voice-chat-lib.js`).

The development shallowly embeds the library's core logic over exact
rationals: the per-frame amplitude sampler (`updateAnimation`), the
motion mapper (per-element rotation/scale easing), the element binding
routine (`initElements`), the microphone toggle (`toggleMic`), the
session teardown (`end`, `reset`) and the post-session analyzer
(`VoiceChatLib.analyzeAudio`).  Numbers are modelled as `ℚ`; DOM and
browser handles are modelled as the data the logic inspects (recorder
state, audio-track enabled flags, recorded chunks).
-/

namespace VoiceChatLib

/-- The numeric tunables of `this.config` (element selectors omitted: the
claims only concern numeric behaviour). -/
structure Config where
  amplitudeSmoothFactorVar : ℚ
  baseRotationDivisor : ℚ
  dynamicLerpMin : ℚ
  dynamicLerpAudioMultiplier : ℚ
  maxAdditionalRotation : ℚ
  baseScaleMultiplier : ℚ
  deriving DecidableEq

/-- The default configuration set in the `VoiceChat` constructor. -/
def defaultConfig : Config :=
  { amplitudeSmoothFactorVar := 3/10
    baseRotationDivisor := 16
    dynamicLerpMin := 1/20
    dynamicLerpAudioMultiplier := 1/2
    maxAdditionalRotation := 360
    baseScaleMultiplier := 2 }

/-- `VoiceChat.prototype.lerp`: `start + factor * (end - start)`. -/
def lerp (start stop factor : ℚ) : ℚ :=
  start + factor * (stop - start)

/-- The amplitude-sampling part of `updateAnimation`: the loop
`sum += Math.abs(dataArray[i] - 128)`, then `average = sum / dataArray.length`,
`amplitudeNormalized = average / 128`, and the exponential-smoothing update of
`smoothedAmplitude` with factor `α = config.amplitudeSmoothFactorVar`. -/
def updateSmoothedAmplitude (α smoothed : ℚ) (samples : List ℕ) : ℚ :=
  let sum := samples.foldl (fun (acc : ℚ) (s : ℕ) => acc + |(s : ℚ) - 128|) 0
  let average := sum / samples.length
  let amplitudeNormalized := average / 128
  smoothed * (1 - α) + amplitudeNormalized * α

/-- Just the smoothing step `smoothed*(1-α) + normalized*α`. -/
def smoothUpdate (α smoothed normalized : ℚ) : ℚ :=
  smoothed * (1 - α) + normalized * α

/-- Iterating the smoothing step over a sequence of normalized inputs. -/
def smoothRun (α s0 : ℚ) (inputs : List ℚ) : ℚ :=
  inputs.foldl (fun s x => smoothUpdate α s x) s0

/-- Per-element randomized parameters read back from `el.dataset`. -/
structure ElemParams where
  offset : ℚ
  speed : ℚ
  scaleMultiplier : ℚ
  deriving DecidableEq

/-- Per-element mutable visual state (`el.currentRotation`, `el.currentScale`). -/
structure ElemVisual where
  currentRotation : ℚ
  currentScale : ℚ
  deriving DecidableEq

/-- The per-element body of the `voiceEls.forEach` in `updateAnimation`:
target rotation/scale from the smoothed amplitude and effective time,
eased by `lerp` with the frame's `dynamicLerpFactor`. -/
def animateElement (cfg : Config) (smoothedAmplitude effectiveTime : ℚ)
    (p : ElemParams) (v : ElemVisual) : ElemVisual :=
  let baseRotation := p.offset + (effectiveTime * p.speed) / cfg.baseRotationDivisor
  let additionalRotation := smoothedAmplitude * cfg.maxAdditionalRotation
  let targetRotation := baseRotation + additionalRotation
  let targetScale := 1 + smoothedAmplitude * p.scaleMultiplier * cfg.baseScaleMultiplier
  let dynamicLerpFactor := cfg.dynamicLerpMin + smoothedAmplitude * cfg.dynamicLerpAudioMultiplier
  { currentRotation := lerp v.currentRotation targetRotation dynamicLerpFactor
    currentScale := lerp v.currentScale targetScale dynamicLerpFactor }

/-- The initial visual state `initElements` gives a freshly bound element:
if audio is running (`audioStarted` and a numeric `startTime`) the predicted
target rotation/scale at the present time, otherwise rotation `0`, scale `1`. -/
def bindElementVisual (cfg : Config) (audioStarted : Bool) (startTime : Option ℚ)
    (now smoothedAmplitude offset speed scaleMultiplier : ℚ) : ElemVisual :=
  match audioStarted, startTime with
  | true, some st =>
      let effectiveTime := now - st
      let baseRot := offset + (effectiveTime * speed) / cfg.baseRotationDivisor
      let addRot := smoothedAmplitude * cfg.maxAdditionalRotation
      { currentRotation := baseRot + addRot
        currentScale := 1 + smoothedAmplitude * scaleMultiplier * cfg.baseScaleMultiplier }
  | _, _ => { currentRotation := 0, currentScale := 1 }

/-- JavaScript `Number.prototype.toFixed(0)` on a nonnegative value,
read back with `parseFloat` (round half away from zero; all rounded
quantities here are nonnegative, so round half up). -/
def fix0 (q : ℚ) : ℚ := (round q : ℤ)

/-- `toFixed(2)` followed by `parseFloat`, as a rational. -/
def fix2 (q : ℚ) : ℚ := ((round (q * 100) : ℤ) : ℚ) / 100

/-- A voice visualizer element: the `initialized` flag, the random dataset
parameters, the transform origin and the current visual state, all stored
on the DOM node by `initElements`. -/
structure VoiceEl where
  initialized : Bool
  offset : ℚ
  speed : ℚ
  scaleMultiplier : ℚ
  originX : ℚ
  originY : ℚ
  currentRotation : ℚ
  currentScale : ℚ
  deriving DecidableEq

/-- The five `Math.random()` draws consumed when an element is first
initialized, each in `[0,1)`. -/
structure RandomDraws where
  r1 : ℚ
  r2 : ℚ
  r3 : ℚ
  r4 : ℚ
  r5 : ℚ
  deriving DecidableEq

/-- The per-element body of the loop in `initElements`: an element already
marked `initialized` is left untouched; otherwise it receives random
parameters and its visual state is seeded by `bindElementVisual`. -/
def initElementStep (cfg : Config) (audioStarted : Bool) (startTime : Option ℚ)
    (smoothedAmplitude now : ℚ) (rnd : RandomDraws) (el : VoiceEl) : VoiceEl :=
  if el.initialized then el
  else
    let offset := fix0 (rnd.r1 * 360)
    let speed := fix2 (1 + rnd.r2 * 2)
    let scaleMultiplier := fix2 (1 + rnd.r3 * (3/2))
    let originX := fix0 (45 + rnd.r4 * 10)
    let originY := fix0 (45 + rnd.r5 * 10)
    let vis := bindElementVisual cfg audioStarted startTime now smoothedAmplitude
      offset speed scaleMultiplier
    { initialized := true
      offset := offset
      speed := speed
      scaleMultiplier := scaleMultiplier
      originX := originX
      originY := originY
      currentRotation := vis.currentRotation
      currentScale := vis.currentScale }

/-- `MediaRecorder.state`. -/
inductive RecState where
  | inactive
  | recording
  | paused
  deriving DecidableEq

/-- A recorder control call issued by `toggleMic`. -/
inductive RecCmd where
  | pause
  | resume
  deriving DecidableEq

/-- The session state owned by the `VoiceChat` singleton, restricted to the
data its methods read and write.  `audioStream` is the list of audio tracks,
each reduced to its `enabled` flag; `mediaRecorder` is the recorder handle
with its state; `recordedChunks` keeps the sizes of the buffered data
fragments. -/
structure Session where
  isMicOn : Bool
  smoothedAmplitude : ℚ
  startTime : Option ℚ
  lastFrameTime : Option ℚ
  audioStarted : Bool
  animationId : Option ℕ
  audioStream : Option (List Bool)
  audioContextOpen : Bool
  mediaRecorder : Option RecState
  recordedChunks : List ℕ
  deriving DecidableEq

/-- `VoiceChat.prototype.toggleMic`, without the DOM display update: returns
the new session state and the recorder control calls issued. -/
def toggleMicCore (s : Session) : Session × List RecCmd :=
  match s.mediaRecorder with
  | some rst =>
      if s.isMicOn then
        let cmds := if rst = RecState.recording then [RecCmd.pause] else []
        let rst' := if rst = RecState.recording then RecState.paused else rst
        ({ s with
            isMicOn := false
            mediaRecorder := some rst'
            audioStream := s.audioStream.map (fun ts => ts.map (fun _ => false)) },
         cmds)
      else
        let cmds := if rst = RecState.paused then [RecCmd.resume] else []
        let rst' := if rst = RecState.paused then RecState.recording else rst
        ({ s with
            isMicOn := true
            mediaRecorder := some rst'
            audioStream := s.audioStream.map (fun ts => ts.map (fun _ => true)) },
         cmds)
  | none =>
      match s.audioStream with
      | some ts =>
          if 0 < ts.length then
            ({ s with
                isMicOn := !s.isMicOn
                audioStream := some (ts.map (fun _ => !s.isMicOn)) },
             [])
          else (s, [])
      | none => (s, [])

/-- The notification record passed to `onToggle`. -/
structure ToggleNote where
  event : String
  isMicOn : Bool
  details : String
  deriving DecidableEq

/-- The `onToggle` payload built at the end of `toggleMic`, reading the
post-toggle flag. -/
def toggleNotify (s : Session) : ToggleNote :=
  { event := "toggleMic", isMicOn := s.isMicOn, details := "Microphone toggled" }

/-- Metadata attached to a recorded clip by `end`. -/
structure AudioMeta where
  duration : ℚ
  size : ℕ
  mimeType : String
  deriving DecidableEq

/-- The notification record passed to `onEnd`; the clip is the list of
chunk sizes assembled into the Blob. -/
structure EndNote where
  event : String
  details : String
  audioBlob : Option (List ℕ)
  audioMeta : Option AudioMeta
  deriving DecidableEq

/-- Whether `end` takes the recorder branch:
`mediaRecorder && (state === "recording" || state === "paused")`. -/
def recorderActive (s : Session) : Bool :=
  match s.mediaRecorder with
  | some RecState.recording => true
  | some RecState.paused => true
  | _ => false

/-- The `onEnd` payload built by `VoiceChat.prototype.end`: with an active
recorder, the chunks buffered by the time the recorder's stop event fires are
assembled into a clip with duration and size metadata; otherwise the
notification carries no clip. -/
def endNotify (s : Session) (chunksAtStop : List ℕ) (now : ℚ) : EndNote :=
  if recorderActive s then
    { event := "end"
      details := "VoiceChat session ended"
      audioBlob := some chunksAtStop
      audioMeta := some
        { duration := now - (s.startTime.getD 0)
          size := chunksAtStop.sum
          mimeType := "audio/webm" } }
  else
    { event := "end"
      details := "VoiceChat session ended (no audio recorded)"
      audioBlob := none
      audioMeta := none }

/-- `VoiceChat.prototype.reset`: cancels the animation, releases stream and
context, stops a non-inactive recorder (dropping the handle), clears the
chunk buffer, clears the timing baseline and flags, and re-enables the mic
flag. -/
def reset (s : Session) : Session :=
  { s with
    animationId := none
    audioStream := none
    audioContextOpen := false
    mediaRecorder :=
      match s.mediaRecorder with
      | some RecState.inactive => some RecState.inactive
      | _ => none
    recordedChunks := []
    startTime := none
    lastFrameTime := none
    audioStarted := false
    isMicOn := true }

/-- The synchronous core of the `initAudio` success continuation: installs
the stream, opens the context, sets both time markers to `performance.now()`,
marks audio started, and (when the host has a recorder capability) clears the
chunk buffer and starts a fresh recorder. -/
def startAudioSuccess (now : ℚ) (tracks : List Bool) (hasRecorder : Bool)
    (s : Session) : Session :=
  { s with
    audioStream := some tracks
    audioContextOpen := true
    startTime := some now
    lastFrameTime := some now
    audioStarted := true
    recordedChunks := if hasRecorder then [] else s.recordedChunks
    mediaRecorder := if hasRecorder then some RecState.recording else s.mediaRecorder }

/-- The result record of `VoiceChatLib.analyzeAudio`. -/
structure Analysis where
  isMostlySilence : Bool
  avgAmplitude : ℚ
  deriving DecidableEq

/-- The mean absolute amplitude `sum(|channelData[i]|) / channelData.length`
computed by `analyzeAudio` over the first channel's decoded samples. -/
def avgAmplitude (channelData : List ℚ) : ℚ :=
  (channelData.map (fun x => |x|)).sum / channelData.length

/-- `VoiceChatLib.analyzeAudio` on successfully decoded channel data:
classifies the clip as mostly silence exactly when the mean absolute
amplitude is below `0.02`. -/
def analyzeAudio (channelData : List ℚ) : Analysis :=
  { isMostlySilence := decide (avgAmplitude channelData < 1/50)
    avgAmplitude := avgAmplitude channelData }

/-! ### Helper lemmas -/

/-- Unfolding the accumulating sum loop into `List.sum` of the mapped list. -/
lemma foldl_absdev_eq_sum (l : List ℕ) (init : ℚ) :
    l.foldl (fun (acc : ℚ) (s : ℕ) => acc + |(s : ℚ) - 128|) init
      = init + (l.map (fun (s : ℕ) => |(s : ℚ) - 128|)).sum := by
  induction l generalizing init with
  | nil => simp
  | cons a t ih =>
      rw [List.foldl_cons, ih, List.map_cons, List.sum_cons]
      ring

/-- One smoothing step stays between its two arguments when `0 < α ≤ 1`. -/
lemma smoothUpdate_between (α : ℚ) (h0 : 0 < α) (h1 : α ≤ 1) (p x : ℚ) :
    min p x ≤ smoothUpdate α p x ∧ smoothUpdate α p x ≤ max p x := by
  unfold smoothUpdate
  rcases le_total p x with hpx | hxp
  · rw [min_eq_left hpx, max_eq_right hpx]
    constructor <;> nlinarith
  · rw [min_eq_right hxp, max_eq_left hxp]
    constructor <;> nlinarith

/-- Iterated smoothing stays in the unit interval when the seed and all
inputs do. -/
lemma smoothRun_unit (α : ℚ) (h0 : 0 < α) (h1 : α ≤ 1) :
    ∀ (inputs : List ℚ) (s0 : ℚ), 0 ≤ s0 → s0 ≤ 1 →
      (∀ x ∈ inputs, 0 ≤ x ∧ x ≤ 1) →
      0 ≤ smoothRun α s0 inputs ∧ smoothRun α s0 inputs ≤ 1 := by
  intro inputs
  induction inputs with
  | nil => intro s0 hs0 hs1 _; exact ⟨hs0, hs1⟩
  | cons a t ih =>
      intro s0 hs0 hs1 hmem
      obtain ⟨ha0, ha1⟩ := hmem a (List.mem_cons_self a t)
      have hstep0 : 0 ≤ smoothUpdate α s0 a := by
        unfold smoothUpdate; nlinarith
      have hstep1 : smoothUpdate α s0 a ≤ 1 := by
        unfold smoothUpdate; nlinarith
      have := ih (smoothUpdate α s0 a) hstep0 hstep1
        (fun x hx => hmem x (List.mem_cons_of_mem a hx))
      simpa [smoothRun] using this

/-- The absolute values of samples that are all `±1/2` sum to half the
length. -/
lemma sum_abs_half (l : List ℚ) (h : ∀ x ∈ l, x = 1/2 ∨ x = -(1/2)) :
    (l.map (fun x => |x|)).sum = l.length * (1/2) := by
  induction l with
  | nil => simp
  | cons a t ih =>
      have ha : |a| = 1/2 := by
        obtain ha | ha := h a (List.mem_cons_self a t) <;> subst ha
        · exact abs_of_pos (by norm_num)
        · rw [abs_neg]; exact abs_of_pos (by norm_num)
      rw [List.map_cons, List.sum_cons, ha,
        ih (fun x hx => h x (List.mem_cons_of_mem a hx)), List.length_cons]
      push_cast
      ring

/-! ### Claims C1–C4 -/

/-- C1: for every nonempty raw sample buffer of unsigned 8-bit values, the
amplitude sampler computes `average = mean(|sample-128|)`, normalizes it by
`128`, and updates the smoothed amplitude to
`smoothed*(1-α) + normalized*α`; the default smoothing factor is `0.3`. -/
theorem amplitude_sampler_update (α smoothed : ℚ) (samples : List ℕ)
    (_hne : samples ≠ []) :
    updateSmoothedAmplitude α smoothed samples
        = smoothed * (1 - α)
          + ((samples.map (fun (s : ℕ) => |(s : ℚ) - 128|)).sum / samples.length / 128) * α
      ∧ defaultConfig.amplitudeSmoothFactorVar = 3/10 := by
  refine ⟨?_, rfl⟩
  unfold updateSmoothedAmplitude
  rw [foldl_absdev_eq_sum]
  ring

/-- Witness for C1 on the concrete buffer `[128, 130]`. -/
theorem amplitude_sampler_update_witness :
    updateSmoothedAmplitude (3/10) 0 [128, 130]
        = 0 * (1 - 3/10)
          + ((([128, 130] : List ℕ).map (fun (s : ℕ) => |(s : ℚ) - 128|)).sum
              / ([128, 130] : List ℕ).length / 128) * (3/10)
      ∧ defaultConfig.amplitudeSmoothFactorVar = 3/10 :=
  amplitude_sampler_update (3/10) 0 [128, 130] (by decide)

/-- C2: for `α ∈ (0,1]`, every smoothing update lands between the prior value
and the input, and iterating from `0` over inputs in `[0,1]` keeps the
smoothed amplitude in `[0,1]`. -/
theorem smoothing_lerp_bounded (α : ℚ) (h0 : 0 < α) (h1 : α ≤ 1) :
    (∀ prior input : ℚ,
        min prior input ≤ smoothUpdate α prior input
          ∧ smoothUpdate α prior input ≤ max prior input)
      ∧ ∀ inputs : List ℚ, (∀ x ∈ inputs, 0 ≤ x ∧ x ≤ 1) →
          0 ≤ smoothRun α 0 inputs ∧ smoothRun α 0 inputs ≤ 1 := by
  refine ⟨fun prior input => smoothUpdate_between α h0 h1 prior input, ?_⟩
  intro inputs hmem
  exact smoothRun_unit α h0 h1 inputs 0 le_rfl (by norm_num) hmem

/-- Witness for C2 at `α = 0.3`, prior `0`, input `1`, sequence `[1, 1/2]`. -/
theorem smoothing_lerp_bounded_witness :
    (min (0 : ℚ) 1 ≤ smoothUpdate (3/10) 0 1 ∧ smoothUpdate (3/10) 0 1 ≤ max 0 1)
      ∧ 0 ≤ smoothRun (3/10) 0 [1, 1/2] ∧ smoothRun (3/10) 0 [1, 1/2] ≤ 1 :=
  ⟨(smoothing_lerp_bounded (3/10) (by norm_num) (by norm_num)).1 0 1,
   (smoothing_lerp_bounded (3/10) (by norm_num) (by norm_num)).2 [1, 1/2]
     (by intro x hx; fin_cases hx <;> norm_num)⟩

/-- C3: each frame, the motion mapper moves an element's rotation and scale by
`lerp(current, target, lerpFactor)` where
`target rotation = offset + effectiveTime*speed/rotationDivisor + a*maxAdditionalRotation`,
`target scale = 1 + a*scaleMultiplier*baseScaleMultiplier`,
`lerpFactor = dynamicLerpMin + a*dynamicLerpAudioMultiplier`, and
`lerp(a,b,t) = a + t*(b-a)`. -/
theorem motion_mapper_formulas (cfg : Config) (a t : ℚ) (p : ElemParams) (v : ElemVisual) :
    (animateElement cfg a t p v).currentRotation
        = lerp v.currentRotation
            (p.offset + t * p.speed / cfg.baseRotationDivisor + a * cfg.maxAdditionalRotation)
            (cfg.dynamicLerpMin + a * cfg.dynamicLerpAudioMultiplier)
      ∧ (animateElement cfg a t p v).currentScale
          = lerp v.currentScale
              (1 + a * p.scaleMultiplier * cfg.baseScaleMultiplier)
              (cfg.dynamicLerpMin + a * cfg.dynamicLerpAudioMultiplier)
      ∧ ∀ x y f : ℚ, lerp x y f = x + f * (y - x) := by
  refine ⟨?_, ?_, fun x y f => rfl⟩ <;> simp [animateElement, lerp]

/-- C4: an element bound mid-session (audio started, numeric start time) is
initialized to the currently-predicted target rotation and scale; with zero
smoothed amplitude, zero effective time and offset `10` the predicted rotation
is exactly `10`. -/
theorem bind_time_prediction (cfg : Config) (st now a offset speed sm : ℚ) :
    bindElementVisual cfg true (some st) now a offset speed sm
        = { currentRotation :=
              offset + (now - st) * speed / cfg.baseRotationDivisor
                + a * cfg.maxAdditionalRotation
            currentScale := 1 + a * sm * cfg.baseScaleMultiplier }
      ∧ (bindElementVisual cfg true (some st) st 0 10 speed sm).currentRotation = 10 := by
  constructor
  · simp [bindElementVisual]
  · simp [bindElementVisual]

/-! ### Claims C5–C10 -/

/-- C5: the element-binding routine is idempotent per element: an element
already marked initialized keeps its random parameters, transform origin and
current rotation/scale; consequently re-running the binding step (with any
fresh randomness, timing and amplitude) on an element it has processed
changes nothing. -/
theorem init_element_idempotent (cfg cfg2 : Config) (audio audio2 : Bool)
    (st st2 : Option ℚ) (sm now sm2 now2 : ℚ) (r r2 : RandomDraws) (el : VoiceEl) :
    (el.initialized = true → initElementStep cfg audio st sm now r el = el)
      ∧ initElementStep cfg2 audio2 st2 sm2 now2 r2 (initElementStep cfg audio st sm now r el)
          = initElementStep cfg audio st sm now r el := by
  constructor
  · intro h
    simp [initElementStep, h]
  · by_cases h : el.initialized <;> simp [initElementStep, h]

/-- Witness for C5 on a concrete already-initialized element. -/
theorem init_element_idempotent_witness :
    initElementStep defaultConfig false none 0 0 ⟨0, 0, 0, 0, 0⟩
        ⟨true, 1, 1, 1, 50, 50, 0, 1⟩
      = ⟨true, 1, 1, 1, 50, 50, 0, 1⟩ :=
  (init_element_idempotent defaultConfig defaultConfig false false none none
    0 0 0 0 ⟨0, 0, 0, 0, 0⟩ ⟨0, 0, 0, 0, 0⟩ ⟨true, 1, 1, 1, 50, 50, 0, 1⟩).1 rfl

/-- C6: toggling the microphone twice returns the mic-enabled flag to its
original value, and the recorder control calls are guarded: `pause` is issued
only from the `recording` state and `resume` only from the `paused` state. -/
theorem toggle_mic_double_and_balanced (s : Session) :
    (toggleMicCore (toggleMicCore s).1).1.isMicOn = s.isMicOn
      ∧ (RecCmd.pause ∈ (toggleMicCore s).2 → s.mediaRecorder = some RecState.recording)
      ∧ (RecCmd.resume ∈ (toggleMicCore s).2 → s.mediaRecorder = some RecState.paused) := by
  rcases s with ⟨mic, sa, stt, lft, ast, aid, stream, ctx, mr, chunks⟩
  cases mr with
  | some rst => cases rst <;> cases mic <;> simp [toggleMicCore]
  | none =>
      cases stream with
      | none => cases mic <;> simp [toggleMicCore]
      | some ts =>
          by_cases hl : 0 < ts.length <;> cases mic <;>
            simp [toggleMicCore, hl]

/-- The session used to witness C6: mic on, recorder recording. -/
def capturingSession : Session :=
  { isMicOn := true
    smoothedAmplitude := 0
    startTime := some 0
    lastFrameTime := some 0
    audioStarted := true
    animationId := some 1
    audioStream := some [true]
    audioContextOpen := true
    mediaRecorder := some RecState.recording
    recordedChunks := [] }

/-- Witness for C6 on a capturing session with an active recorder. -/
theorem toggle_mic_double_and_balanced_witness :
    (toggleMicCore (toggleMicCore capturingSession).1).1.isMicOn = capturingSession.isMicOn
      ∧ capturingSession.mediaRecorder = some RecState.recording :=
  ⟨(toggle_mic_double_and_balanced capturingSession).1,
   (toggle_mic_double_and_balanced capturingSession).2.1 (by decide)⟩

/-- A session whose recorder is still recording while zero data fragments
have been buffered (counterexample input for C7). -/
def recordingNoChunks : Session :=
  { isMicOn := true
    smoothedAmplitude := 0
    startTime := some 0
    lastFrameTime := some 0
    audioStarted := true
    animationId := some 1
    audioStream := some [true]
    audioContextOpen := true
    mediaRecorder := some RecState.recording
    recordedChunks := [] }

/-- Counterexample to C7 as stated: a session ended with zero recorded
fragments but an active recorder still emits an end notification carrying an
`audioBlob` (the empty clip) and `audioMeta`, with the generic details text —
the branch tests the recorder state, not the fragment count. -/
theorem end_zero_chunks_still_emits_clip :
    recordingNoChunks.recordedChunks = []
      ∧ (endNotify recordingNoChunks [] 0).audioBlob = some []
      ∧ (endNotify recordingNoChunks [] 0).audioMeta ≠ none
      ∧ (endNotify recordingNoChunks [] 0).details = "VoiceChat session ended" := by
  refine ⟨rfl, rfl, by decide, rfl⟩

/-- C7 (amended): for every session ended with *no active recorder* (the
recorder handle absent or inactive), `end` emits an end notification with no
`audioBlob` and no `audioMeta` and with details indicating no audio was
recorded; an empty fragment buffer alone does not suppress the clip. -/
theorem end_no_active_recorder_no_clip (s : Session) (chunksAtStop : List ℕ)
    (now : ℚ) (h : recorderActive s = false) :
    (endNotify s chunksAtStop now).audioBlob = none
      ∧ (endNotify s chunksAtStop now).audioMeta = none
      ∧ (endNotify s chunksAtStop now).details
          = "VoiceChat session ended (no audio recorded)" := by
  simp [endNotify, h]

/-- An idle session: nothing acquired, no recorder. -/
def idleSession : Session :=
  { isMicOn := true
    smoothedAmplitude := 0
    startTime := none
    lastFrameTime := none
    audioStarted := false
    animationId := none
    audioStream := none
    audioContextOpen := false
    mediaRecorder := none
    recordedChunks := [] }

/-- Witness for the amended C7 on an idle session. -/
theorem end_no_active_recorder_no_clip_witness :
    (endNotify idleSession [] 0).audioBlob = none
      ∧ (endNotify idleSession [] 0).audioMeta = none
      ∧ (endNotify idleSession [] 0).details
          = "VoiceChat session ended (no audio recorded)" :=
  end_no_active_recorder_no_clip idleSession [] 0 rfl

/-- C8: the analyzer computes the mean absolute amplitude of the first
channel and classifies the clip as mostly silence exactly when that mean is
below `0.02`; all-zero samples give mean `0` (silence), samples alternating
`±0.5` give mean `0.5` (not silence). -/
theorem analyze_audio_classification (channelData : List ℚ) (hne : channelData ≠ []) :
    ((analyzeAudio channelData).isMostlySilence = true
        ↔ avgAmplitude channelData < 1/50)
      ∧ ((∀ x ∈ channelData, x = 0) →
          (analyzeAudio channelData).avgAmplitude = 0
            ∧ (analyzeAudio channelData).isMostlySilence = true)
      ∧ ((∀ x ∈ channelData, x = 1/2 ∨ x = -(1/2)) →
          (analyzeAudio channelData).avgAmplitude = 1/2
            ∧ (analyzeAudio channelData).isMostlySilence = false) := by
  have hlen : (channelData.length : ℚ) ≠ 0 := by
    exact_mod_cast fun h => hne (List.length_eq_zero.mp (by exact_mod_cast h))
  refine ⟨by simp [analyzeAudio], ?_, ?_⟩
  · intro hz
    have hsum : (channelData.map (fun x => |x|)).sum = 0 := by
      apply List.sum_eq_zero
      intro y hy
      obtain ⟨x, hx, rfl⟩ := List.mem_map.mp hy
      simp [hz x hx]
    have havg : avgAmplitude channelData = 0 := by
      simp [avgAmplitude, hsum]
    refine ⟨havg, ?_⟩
    simp [analyzeAudio, havg]
  · intro hh
    have hsum : (channelData.map (fun x => |x|)).sum = channelData.length * (1/2) :=
      sum_abs_half channelData hh
    have havg : avgAmplitude channelData = 1/2 := by
      rw [avgAmplitude, hsum, mul_comm, mul_div_assoc, div_self hlen, mul_one]
    refine ⟨havg, ?_⟩
    norm_num [analyzeAudio, havg]

/-- Witness for C8 on `[0.5, -0.5]` and `[0, 0]`. -/
theorem analyze_audio_classification_witness :
    ((analyzeAudio [(1 : ℚ)/2, -(1/2)]).avgAmplitude = 1/2
        ∧ (analyzeAudio [(1 : ℚ)/2, -(1/2)]).isMostlySilence = false)
      ∧ ((analyzeAudio [(0 : ℚ), 0]).avgAmplitude = 0
        ∧ (analyzeAudio [(0 : ℚ), 0]).isMostlySilence = true) :=
  ⟨(analyze_audio_classification [(1 : ℚ)/2, -(1/2)] (List.cons_ne_nil _ _)).2.2
     (by intro x hx; fin_cases hx <;> simp),
   (analyze_audio_classification [(0 : ℚ), 0] (List.cons_ne_nil _ _)).2.1
     (by intro x hx; fin_cases hx <;> rfl)⟩

/-- C9: after `reset`, from any state, the fragment buffer is empty, the mic
flag is restored to `true`, the timing baseline is cleared, audio is marked
not started, and a subsequent successful start installs a fresh baseline equal
to the new start instant, independent of the prior session. -/
theorem reset_clears_session (s : Session) (now : ℚ) (tracks : List Bool)
    (hasRecorder : Bool) :
    (reset s).recordedChunks = []
      ∧ (reset s).isMicOn = true
      ∧ (reset s).startTime = none
      ∧ (reset s).lastFrameTime = none
      ∧ (reset s).audioStarted = false
      ∧ (startAudioSuccess now tracks hasRecorder (reset s)).startTime = some now
      ∧ (startAudioSuccess now tracks hasRecorder (reset s)).lastFrameTime = some now :=
  ⟨rfl, rfl, rfl, rfl, rfl, rfl, rfl⟩

/-- C10: with no recorder and no audio stream holding at least one track,
`toggleMic` leaves the whole session unchanged (the flag does not flip),
issues no recorder call, and still emits a toggle notification carrying the
unchanged flag. -/
theorem toggle_mic_no_stream_noop (s : Session)
    (h1 : s.mediaRecorder = none)
    (h2 : s.audioStream = none ∨ s.audioStream = some []) :
    (toggleMicCore s).1 = s
      ∧ (toggleMicCore s).2 = []
      ∧ toggleNotify (toggleMicCore s).1
          = { event := "toggleMic", isMicOn := s.isMicOn, details := "Microphone toggled" } := by
  obtain h2 | h2 := h2 <;> simp [toggleMicCore, toggleNotify, h1, h2]

/-- Witness for C10 on the idle session. -/
theorem toggle_mic_no_stream_noop_witness :
    (toggleMicCore idleSession).1 = idleSession
      ∧ (toggleMicCore idleSession).2 = []
      ∧ toggleNotify (toggleMicCore idleSession).1
          = { event := "toggleMic", isMicOn := idleSession.isMicOn
              details := "Microphone toggled" } :=
  toggle_mic_no_stream_noop idleSession rfl (Or.inl rfl)

end VoiceChatLib
